import Mathlib

/-!
Verification of core logic of the multi-machine vision fault-monitoring
system (`src/core`).  The Python classes are shallowly embedded as pure
Lean functions and explicit state passing:

* `MachineController._determine_pair_status` and the fault-record update
  inside `process_detections`  (src/core/machine_controller.py);
* `FrameBuffer` (src/core/camera_thread.py) — the Python `queue.Queue` is
  modelled as a list, oldest element first, with the Python convention
  that `maxsize = 0` means unbounded;
* the `InferenceEngine` input queue and `submit_frame`
  (src/core/inference_engine.py);
* `CameraThread.reconnect_camera` / `connect_camera` and the outer `run`
  loop (src/core/camera_thread.py) — hardware outcomes (whether the
  source opens at a given attempt) are abstracted as Boolean oracles,
  emitted Qt signals are counted as naturals;
* `RelayManager.configure_machine`, `set_machine_relays` and
  `_set_relay_with_retry` (src/core/relay_manager.py) — the Python dict
  `machine_relays` is an association list, the hardware outcome of a
  write is an oracle over (channel, attempt index within the call).

Timestamps (`datetime.now()`) are abstracted as naturals supplied by the
caller.
-/

namespace MultiMachineVision

/-- The three string values `"OK"`, `"FAULT"`, `"UNKNOWN"` that
`MachineController.pair_statuses` entries range over. -/
inductive PairStatus where
  | OK : PairStatus
  | FAULT : PairStatus
  | UNKNOWN : PairStatus
deriving DecidableEq, Repr

/-- `MachineController._determine_pair_status`, as a function of the two
slot counters `detection_counts[f"pair{n}_oc"]` and
`detection_counts[f"pair{n}_bh"]`: `OK` when both are exactly 1, else
`FAULT`. -/
def determinePairStatus (oc_count bh_count : Nat) : PairStatus :=
  if oc_count = 1 ∧ bh_count = 1 then PairStatus.OK else PairStatus.FAULT

/-- Per-pair fault-record update performed by the loop at the end of
`MachineController.process_detections`: given the freshly computed
status and the pair's stored `last_fault_times[i]`, returns the new
stored time together with the amount added to `fault_count` (0 or 1).
`now` abstracts `datetime.now()`. -/
def updateFaultRecord (status : PairStatus) (t : Option Nat) (now : Nat) :
    Option Nat × Nat :=
  if status ≠ PairStatus.OK then
    match t with
    | none => (some now, 1)
    | some t0 => (some t0, 0)
  else (none, 0)

/-- The `MachineController` state touched by the claims: the three pair
statuses, the three nullable first-fault timestamps, and the cumulative
counters `fault_count` and `total_detections`. -/
structure ControllerState where
  pairStatuses : PairStatus × PairStatus × PairStatus
  lastFaultTimes : Option Nat × Option Nat × Option Nat
  faultCount : Nat
  totalDetections : Nat
deriving DecidableEq, Repr

/-- `MachineController.__init__`: statuses start as `"UNKNOWN"`,
`last_fault_times = [None, None, None]`, counters zero. -/
def initController : ControllerState :=
  ⟨(PairStatus.UNKNOWN, PairStatus.UNKNOWN, PairStatus.UNKNOWN),
   (none, none, none), 0, 0⟩

/-- `MachineController.process_detections`, from the point where the six
slot counters have been filled in by `_check_boundaries`:
`c1 c2 c3` are the (oc_count, bh_count) pairs for pairs 1–3 (the
geometric counting itself calls `cv2.pointPolygonTest` and is external
to the claims about status determination and fault bookkeeping).
Recomputes the three statuses from scratch, then runs the fault-record
loop over them. -/
def processDetections (st : ControllerState) (c1 c2 c3 : Nat × Nat)
    (now : Nat) : ControllerState :=
  let s1 := determinePairStatus c1.1 c1.2
  let s2 := determinePairStatus c2.1 c2.2
  let s3 := determinePairStatus c3.1 c3.2
  let r1 := updateFaultRecord s1 st.lastFaultTimes.1 now
  let r2 := updateFaultRecord s2 st.lastFaultTimes.2.1 now
  let r3 := updateFaultRecord s3 st.lastFaultTimes.2.2 now
  ⟨(s1, s2, s3), (r1.1, r2.1, r3.1),
   st.faultCount + r1.2 + r2.2 + r3.2,
   st.totalDetections + 1⟩

/-- `MachineController.reset_stats`: zeroes the counters and clears the
fault times; the pair statuses are not touched. -/
def resetStats (st : ControllerState) : ControllerState :=
  ⟨st.pairStatuses, (none, none, none), 0, 0⟩

/-- The state-mutating operations of `MachineController` relevant to the
status invariant: a `process_detections` call (with its slot counts and
timestamp) or a `reset_stats` call. -/
inductive ControllerOp where
  | process : (Nat × Nat) → (Nat × Nat) → (Nat × Nat) → Nat → ControllerOp
  | reset : ControllerOp
deriving DecidableEq, Repr

/-- Apply one controller operation. -/
def applyControllerOp (st : ControllerState) : ControllerOp → ControllerState
  | ControllerOp.process c1 c2 c3 now => processDetections st c1 c2 c3 now
  | ControllerOp.reset => resetStats st

/-- Apply a sequence of controller operations, left to right. -/
def applyControllerOps (st : ControllerState) : List ControllerOp → ControllerState
  | [] => st
  | op :: rest => applyControllerOps (applyControllerOp st op) rest

/-- Each of the three statuses is `OK` or `FAULT` (no `UNKNOWN`). -/
def statusesSettled (st : ControllerState) : Prop :=
  (st.pairStatuses.1 = PairStatus.OK ∨ st.pairStatuses.1 = PairStatus.FAULT) ∧
  (st.pairStatuses.2.1 = PairStatus.OK ∨ st.pairStatuses.2.1 = PairStatus.FAULT) ∧
  (st.pairStatuses.2.2 = PairStatus.OK ∨ st.pairStatuses.2.2 = PairStatus.FAULT)

instance (st : ControllerState) : Decidable (statusesSettled st) := by
  unfold statusesSettled; infer_instance

/-- Whether an operation is a `process_detections` call. -/
def ControllerOp.isProcess : ControllerOp → Bool
  | ControllerOp.process _ _ _ _ => true
  | ControllerOp.reset => false

/-- `FrameBuffer` (src/core/camera_thread.py): a bounded queue, modelled
as a list with the oldest frame first.  Following Python's
`queue.Queue`, `maxsize = 0` means unbounded. -/
structure FrameBuffer (α : Type) where
  maxsize : Nat
  queue : List α
deriving DecidableEq, Repr

/-- The default value of the `maxsize` parameter of
`FrameBuffer.__init__` (`def __init__(self, maxsize=10)`). -/
def frameBufferDefaultMaxsize : Nat := 10

/-- `FrameBuffer(...)` constructed without an explicit `maxsize`. -/
def FrameBuffer.mkDefault (α : Type) : FrameBuffer α :=
  ⟨frameBufferDefaultMaxsize, []⟩

/-- The frame buffer built in `CameraThread.__init__`:
`self.frame_buffer = FrameBuffer(maxsize=5)`. -/
def cameraThreadFrameBuffer (α : Type) : FrameBuffer α := ⟨5, []⟩

/-- Python `queue.Queue.full()`: true iff `maxsize > 0` and at least
`maxsize` items are stored. -/
def FrameBuffer.isFull (b : FrameBuffer α) : Bool :=
  decide (0 < b.maxsize ∧ b.maxsize ≤ b.queue.length)

/-- `FrameBuffer.put` with `block=False`: if the queue is full, drop the
single oldest entry (`get_nowait`) and then insert the new frame at the
back; otherwise just insert.  Never blocks, never raises. -/
def FrameBuffer.put (b : FrameBuffer α) (frame : α) : FrameBuffer α :=
  if b.isFull then ⟨b.maxsize, b.queue.drop 1 ++ [frame]⟩
  else ⟨b.maxsize, b.queue ++ [frame]⟩

/-- `FrameBuffer.get`: returns the oldest frame and removes it, or
`none` when the buffer is empty (the Python code turns `queue.Empty`
into `return None`). -/
def FrameBuffer.getFrame (b : FrameBuffer α) : Option α × FrameBuffer α :=
  match b.queue with
  | [] => (none, b)
  | x :: rest => (some x, ⟨b.maxsize, rest⟩)

/-- `FrameBuffer.clear`: drains every stored frame. -/
def FrameBuffer.clear (b : FrameBuffer α) : FrameBuffer α := ⟨b.maxsize, []⟩

/-- The operations a client can perform on a `FrameBuffer`. -/
inductive BufOp (α : Type) where
  | put : α → BufOp α
  | get : BufOp α
  | clear : BufOp α
deriving DecidableEq, Repr

/-- Apply one buffer operation (the value returned by `get` is
discarded; only the state matters for the capacity invariant). -/
def applyBufOp (b : FrameBuffer α) : BufOp α → FrameBuffer α
  | BufOp.put f => b.put f
  | BufOp.get => (b.getFrame).2
  | BufOp.clear => b.clear

/-- Apply a sequence of buffer operations, left to right. -/
def applyBufOps (b : FrameBuffer α) : List (BufOp α) → FrameBuffer α
  | [] => b
  | op :: rest => applyBufOps (applyBufOp b op) rest

/-- The `InferenceEngine` bounded input queue
(`self.input_queue = queue.Queue(maxsize=30)`), modelled as a list with
the oldest submission first. -/
structure InferenceQueue (α : Type) where
  items : List α
deriving DecidableEq, Repr

/-- The capacity of the inference input queue. -/
def inferenceQueueCapacity : Nat := 30

/-- Python `queue.Queue.put(·, block=False)` on a queue of capacity
`maxsize`: raises `queue.Full` (the `error` branch) iff the queue is
bounded and already holds `maxsize` items, otherwise appends. -/
def queuePutNonblocking (items : List α) (maxsize : Nat) (x : α) :
    Except Unit (List α) :=
  if 0 < maxsize ∧ maxsize ≤ items.length then Except.error ()
  else Except.ok (items ++ [x])

/-- `InferenceEngine.submit_frame`: tries a non-blocking put and
silently swallows `queue.Full` (`except queue.Full: pass`).  Returns the
new queue state together with `true` when the frame was dropped.  The
function is total: no exception ever reaches the caller. -/
def submitFrame (q : InferenceQueue α) (x : α) : InferenceQueue α × Bool :=
  match queuePutNonblocking q.items inferenceQueueCapacity x with
  | Except.ok items => (⟨items⟩, false)
  | Except.error _ => (q, true)

/-- Submit a list of frames in order, counting how many were dropped. -/
def submitAll (q : InferenceQueue α) : List α → InferenceQueue α × Nat
  | [] => (q, 0)
  | x :: rest =>
      let r := submitFrame q x
      let s := submitAll r.1 rest
      (s.1, (if r.2 then 1 else 0) + s.2)

/-- The reconnect bookkeeping of `CameraThread`: the attempt counter,
the base backoff (`self.reconnect_backoff = 2`, reset to 2 on every
good frame) and the cap (`reconnect_backoff_max`, default 60). -/
structure ReconnectState where
  reconnectAttempts : Nat
  reconnectBackoff : Nat
  reconnectBackoffMax : Nat
deriving DecidableEq, Repr

/-- `CameraThread.reconnect_camera`: increments the attempt counter and
sleeps `min(self.reconnect_backoff * self.reconnect_attempts,
self.reconnect_backoff_max)` seconds.  Returns the new state and the
sleep duration. -/
def reconnectCamera (st : ReconnectState) : ReconnectState × Nat :=
  let st' : ReconnectState :=
    ⟨st.reconnectAttempts + 1, st.reconnectBackoff, st.reconnectBackoffMax⟩
  (st', min (st'.reconnectBackoff * st'.reconnectAttempts) st'.reconnectBackoffMax)

/-- Iterate `reconnect_camera` `n` times (keeping only the state). -/
def iterateReconnect (st : ReconnectState) : Nat → ReconnectState
  | 0 => st
  | n + 1 => iterateReconnect (reconnectCamera st).1 n

/-- The sleep duration of the k-th consecutive `reconnect_camera` call
(k ≥ 1) starting from a freshly reset counter with base `base` and cap
`cap`. -/
def kthReconnectSleep (base cap k : Nat) : Nat :=
  (reconnectCamera (iterateReconnect ⟨0, base, cap⟩ (k - 1))).2

/-- `CameraThread.connect_camera` against an abstract source: `opens i`
tells whether the i-th try (0-based) of the `for attempt in
range(max_reconnect_attempts)` loop succeeds in opening and reading.
Returns `(success, number of error events emitted)`: on success the
loop returns True immediately with no error event; when the budget is
exhausted a single `error_signal` is emitted and False is returned. -/
def connectCameraAux (opens : Nat → Bool) : Nat → Nat → Bool × Nat
  | _, 0 => (false, 1)
  | attempt, fuel + 1 =>
      if opens attempt then (true, 0)
      else connectCameraAux opens (attempt + 1) fuel

/-- `connect_camera` with `max_reconnect_attempts = maxAttempts`. -/
def connectCamera (opens : Nat → Bool) (maxAttempts : Nat) : Bool × Nat :=
  connectCameraAux opens 0 maxAttempts

/-- The part of the `CameraThread.run` state visible to the termination
claim: the cooperative `running` flag, whether a camera handle is open,
and how many error events were emitted so far. -/
structure CamLoopState where
  running : Bool
  cameraOpen : Bool
  errorEvents : Nat
deriving DecidableEq, Repr

/-- One iteration of `CameraThread.run`'s `while self.running` body for a
source that never opens: with no open camera the body calls
`connect_camera` (which fails and emits one error event), then falls to
the `time.sleep(1)` branch and loops.  `running` is only ever cleared by
`stop()`, never by the loop itself. -/
def runStepNeverOpens (maxAttempts : Nat) (st : CamLoopState) : CamLoopState :=
  if st.running then
    if st.cameraOpen then st
    else
      let r := connectCamera (fun _ => false) maxAttempts
      ⟨st.running, r.1, st.errorEvents + r.2⟩
  else st

/-- Set a key in an association list, overwriting an existing binding
(Python `self.machine_relays[machine_id] = relays`). -/
def assocSet (m : List (Nat × List Nat)) (k : Nat) (v : List Nat) :
    List (Nat × List Nat) :=
  match m with
  | [] => [(k, v)]
  | (k', v') :: rest =>
      if k' = k then (k, v) :: rest else (k', v') :: assocSet rest k v

/-- Look a key up in an association list (Python dict indexing). -/
def assocFind (m : List (Nat × List Nat)) (k : Nat) : Option (List Nat) :=
  match m with
  | [] => none
  | (k', v') :: rest => if k' = k then some v' else assocFind rest k

/-- The `RelayManager` mapping state: `machine_relays`, the dict from
machine id to its list of relay channels. -/
structure RelayState where
  machineRelays : List (Nat × List Nat)
deriving DecidableEq, Repr

/-- `RelayManager.configure_machine`: rejects `start_relay < 1 or
start_relay > 14` (three consecutive relays must fit on the 16-channel
board) and otherwise records `[start, start+1, start+2]` for the
machine.  `none` models `return False`.  (The subsequent
`set_machine_relays(machine_id, [False]*3)` call writes hardware but
does not change the mapping, and its result is ignored.) -/
def configureMachine (st : RelayState) (machineId startRelay : Nat) :
    Option RelayState :=
  if startRelay < 1 ∨ startRelay > 14 then none
  else some ⟨assocSet st.machineRelays machineId
              [startRelay, startRelay + 1, startRelay + 2]⟩

/-- Run a sequence of `configure_machine` requests `(machine_id,
start_relay)`; a rejected request leaves the state unchanged, exactly
as the Python `return False` path does. -/
def configureAll (st : RelayState) : List (Nat × Nat) → RelayState
  | [] => st
  | (mid, s) :: rest =>
      configureAll ((configureMachine st mid s).getD st) rest

/-- The possible hardware outcomes of one attempt of
`RelayManager._set_relay_with_retry`: `success` — `set_state` returns
and the function returns True; `raised` — `set_state` (or the handle
check) raises, the attempt sleeps, reinitialises and the loop retries;
`boardAbsent` — the relay handle is `None` and reinitialisation failed,
so the function returns False at once without further retries. -/
inductive WriteOutcome where
  | success : WriteOutcome
  | raised : WriteOutcome
  | boardAbsent : WriteOutcome
deriving DecidableEq, Repr

/-- `RelayManager._set_relay_with_retry` against an abstract board:
`outcome c j` is the hardware outcome of the j-th attempt (0-based,
`for attempt in range(self.max_retries)`) to write channel `c`.
Returns whether the write eventually succeeded together with the trace
of attempts performed, each as `(channel, attempt index)`. -/
def setRelayRetryAux (outcome : Nat → Nat → WriteOutcome) (relayNum : Nat) :
    Nat → Nat → Bool × List (Nat × Nat)
  | _, 0 => (false, [])
  | attempt, fuel + 1 =>
      match outcome relayNum attempt with
      | WriteOutcome.success => (true, [(relayNum, attempt)])
      | WriteOutcome.boardAbsent => (false, [(relayNum, attempt)])
      | WriteOutcome.raised =>
          let r := setRelayRetryAux outcome relayNum (attempt + 1) fuel
          (r.1, (relayNum, attempt) :: r.2)

/-- `_set_relay_with_retry` with retry budget `maxRetries`. -/
def setRelayWithRetry (outcome : Nat → Nat → WriteOutcome)
    (maxRetries relayNum : Nat) : Bool × List (Nat × Nat) :=
  setRelayRetryAux outcome relayNum 0 maxRetries

/-- The body of the `for i, (relay_num, is_fault) in
enumerate(zip(relays, pair_faults))` loop of
`RelayManager.set_machine_relays`: every channel in the zip gets its own
`_set_relay_with_retry` call; a failure only clears the `success` flag
and the loop continues.  Returns `(success, trace of all attempts)`. -/
def setRelaysLoop (outcome : Nat → Nat → WriteOutcome) (maxRetries : Nat) :
    List (Nat × Bool) → Bool × List (Nat × Nat)
  | [] => (true, [])
  | (relayNum, _isFault) :: rest =>
      let r := setRelayWithRetry outcome maxRetries relayNum
      let s := setRelaysLoop outcome maxRetries rest
      (r.1 && s.1, r.2 ++ s.2)

/-- `RelayManager.set_machine_relays`: returns False (with no writes)
for an unconfigured machine, else runs the per-channel loop over
`zip(relays, pair_faults)`. -/
def setMachineRelays (outcome : Nat → Nat → WriteOutcome) (maxRetries : Nat)
    (st : RelayState) (machineId : Nat) (pairFaults : List Bool) :
    Bool × List (Nat × Nat) :=
  match assocFind st.machineRelays machineId with
  | none => (false, [])
  | some relays => setRelaysLoop outcome maxRetries (relays.zip pairFaults)

/-! ## Helper lemmas -/

/-- `_determine_pair_status` never returns `"UNKNOWN"`. -/
theorem determinePairStatus_settled (oc bh : Nat) :
    determinePairStatus oc bh = PairStatus.OK ∨
    determinePairStatus oc bh = PairStatus.FAULT := by
  unfold determinePairStatus
  by_cases h : oc = 1 ∧ bh = 1 <;> simp [h]

/-- After any `process_detections` call all three statuses are settled. -/
theorem processDetections_settled (st : ControllerState)
    (c1 c2 c3 : Nat × Nat) (now : Nat) :
    statusesSettled (processDetections st c1 c2 c3 now) := by
  unfold processDetections statusesSettled
  exact ⟨determinePairStatus_settled _ _, determinePairStatus_settled _ _,
         determinePairStatus_settled _ _⟩

/-- Every controller operation preserves settled statuses. -/
theorem applyControllerOp_settled (st : ControllerState) (op : ControllerOp)
    (h : statusesSettled st) : statusesSettled (applyControllerOp st op) := by
  cases op with
  | process c1 c2 c3 now => exact processDetections_settled st c1 c2 c3 now
  | reset => exact h

/-- `updateFaultRecord` on an `OK` status clears the stamp and adds 0. -/
theorem updateFaultRecord_ok (t : Option Nat) (now : Nat) :
    updateFaultRecord PairStatus.OK t now = (none, 0) := by
  simp [updateFaultRecord]

/-- No buffer operation changes the configured capacity. -/
theorem applyBufOp_maxsize (b : FrameBuffer α) (op : BufOp α) :
    (applyBufOp b op).maxsize = b.maxsize := by
  cases op with
  | put f =>
      show (b.put f).maxsize = b.maxsize
      unfold FrameBuffer.put
      split <;> rfl
  | get =>
      rcases b with ⟨m, _ | ⟨x, rest⟩⟩ <;> rfl
  | clear => rfl

/-- One buffer operation preserves "at most `maxsize` frames stored"
(for a bounded buffer). -/
theorem applyBufOp_length_le (b : FrameBuffer α) (op : BufOp α)
    (hpos : 0 < b.maxsize) (h : b.queue.length ≤ b.maxsize) :
    (applyBufOp b op).queue.length ≤ b.maxsize := by
  cases op with
  | put f =>
      by_cases hfull : 0 < b.maxsize ∧ b.maxsize ≤ b.queue.length
      · simp [applyBufOp, FrameBuffer.put, FrameBuffer.isFull, hfull]
        omega
      · simp [applyBufOp, FrameBuffer.put, FrameBuffer.isFull, hfull]
        omega
  | get =>
      rcases b with ⟨m, _ | ⟨x, rest⟩⟩
      · exact h
      · simp only [applyBufOp, FrameBuffer.getFrame] at *
        simp at h ⊢
        omega
  | clear => simp [applyBufOp, FrameBuffer.clear]

/-- A sequence of buffer operations never changes the capacity. -/
theorem applyBufOps_maxsize (b : FrameBuffer α) (ops : List (BufOp α)) :
    (applyBufOps b ops).maxsize = b.maxsize := by
  induction ops generalizing b with
  | nil => rfl
  | cons op rest ih =>
      rw [applyBufOps, ih, applyBufOp_maxsize]

/-- `reconnect_camera` iterated `n` times raises the attempt counter by
`n` and changes nothing else. -/
theorem iterateReconnect_attempts (base cap a n : Nat) :
    iterateReconnect ⟨a, base, cap⟩ n = ⟨a + n, base, cap⟩ := by
  induction n generalizing a with
  | zero => rfl
  | succ n ih =>
      show iterateReconnect ⟨a + 1, base, cap⟩ n = _
      rw [ih]
      congr 1
      omega

/-- `connect_camera` against a source that never opens fails and emits
exactly one error event, for any attempt budget and starting index. -/
theorem connectCameraAux_never_opens (fuel a : Nat) :
    connectCameraAux (fun _ => false) a fuel = (false, 1) := by
  induction fuel generalizing a with
  | zero => rfl
  | succ n ih => simp [connectCameraAux, ih]

/-- A relay block recorded by `configure_machine`: three consecutive
1-indexed channels fitting on the 16-channel board. -/
def goodBlock (v : List Nat) : Prop :=
  ∃ a, 1 ≤ a ∧ a + 2 ≤ 16 ∧ v = [a, a + 1, a + 2]

/-- Every machine recorded in `machine_relays` owns a good block. -/
def goodState (st : RelayState) : Prop :=
  ∀ p ∈ st.machineRelays, goodBlock p.2

/-- Membership after an association-list update. -/
theorem assocSet_mem (m : List (Nat × List Nat)) (k : Nat) (v : List Nat)
    (p : Nat × List Nat) (hp : p ∈ assocSet m k v) : p = (k, v) ∨ p ∈ m := by
  induction m with
  | nil => simpa [assocSet] using hp
  | cons hd rest ih =>
      rcases hd with ⟨k', v'⟩
      unfold assocSet at hp
      by_cases hk : k' = k
      · simp only [if_pos hk, List.mem_cons] at hp
        rcases hp with h | h
        · exact Or.inl h
        · exact Or.inr (List.mem_cons_of_mem _ h)
      · simp only [if_neg hk, List.mem_cons] at hp
        rcases hp with h | h
        · exact Or.inr (by simp [h])
        · rcases ih h with h' | h'
          · exact Or.inl h'
          · exact Or.inr (List.mem_cons_of_mem _ h')

/-- Looking up the key just set returns the value just set. -/
theorem assocFind_assocSet (m : List (Nat × List Nat)) (k : Nat) (v : List Nat) :
    assocFind (assocSet m k v) k = some v := by
  induction m with
  | nil => simp [assocSet, assocFind]
  | cons hd rest ih =>
      rcases hd with ⟨k', v'⟩
      by_cases hk : k' = k
      · simp [assocSet, assocFind, hk]
      · simp [assocSet, assocFind, hk, ih]

/-- One `configure_machine` call — successful or rejected — preserves
goodness of all recorded blocks. -/
theorem configureMachine_good (st : RelayState) (mid s : Nat)
    (h : goodState st) : goodState ((configureMachine st mid s).getD st) := by
  unfold configureMachine
  by_cases hs : s < 1 ∨ s > 14
  · simp only [if_pos hs, Option.getD_none]
    exact h
  · simp only [if_neg hs, Option.getD_some]
    intro p hp
    rcases assocSet_mem _ _ _ p hp with rfl | hp'
    · exact ⟨s, by omega, by omega, rfl⟩
    · exact h p hp'

/-- Any sequence of `configure_machine` requests preserves goodness. -/
theorem configureAll_good (reqs : List (Nat × Nat)) (st : RelayState)
    (h : goodState st) : goodState (configureAll st reqs) := by
  induction reqs generalizing st with
  | nil => exact h
  | cons r rest ih =>
      rcases r with ⟨mid, s⟩
      exact ih _ (configureMachine_good st mid s h)

/-- Every attempt in a `_set_relay_with_retry` trace is on the channel
being written. -/
theorem setRelayRetryAux_channel (outcome : Nat → Nat → WriteOutcome) (c : Nat)
    (fuel a : Nat) (e : Nat × Nat)
    (he : e ∈ (setRelayRetryAux outcome c a fuel).2) : e.1 = c := by
  induction fuel generalizing a with
  | zero => simp [setRelayRetryAux] at he
  | succ n ih =>
      unfold setRelayRetryAux at he
      cases hw : outcome c a with
      | success =>
          rw [hw] at he
          simp at he
          rw [he]
      | boardAbsent =>
          rw [hw] at he
          simp at he
          rw [he]
      | raised =>
          rw [hw] at he
          simp at he
          rcases he with he | he
          · rw [he]
          · exact ih (a + 1) he

/-- A channel whose every attempt raises exhausts its full retry
budget: the write fails and one attempt is traced for every index in
`range' a fuel`. -/
theorem setRelayRetryAux_exhausted (outcome : Nat → Nat → WriteOutcome) (c : Nat)
    (fuel a : Nat) (h : ∀ j, outcome c j = WriteOutcome.raised) :
    setRelayRetryAux outcome c a fuel =
      (false, (List.range' a fuel).map (fun j => (c, j))) := by
  induction fuel generalizing a with
  | zero => rfl
  | succ n ih =>
      unfold setRelayRetryAux
      rw [h a]
      simp only [List.range'_succ, List.map_cons]
      rw [ih (a + 1)]

/-- A retry trace filtered on its own channel is itself. -/
theorem setRelayWithRetry_filter_self (outcome : Nat → Nat → WriteOutcome)
    (m c : Nat) :
    ((setRelayWithRetry outcome m c).2).filter (fun e => e.1 == c) =
      (setRelayWithRetry outcome m c).2 :=
  List.filter_eq_self.mpr (fun e he => by
    have hc := setRelayRetryAux_channel outcome c m 0 e he
    simp [hc])

/-- A retry trace filtered on a different channel is empty. -/
theorem setRelayWithRetry_filter_ne (outcome : Nat → Nat → WriteOutcome)
    (m c c' : Nat) (h : c' ≠ c) :
    ((setRelayWithRetry outcome m c).2).filter (fun e => e.1 == c') = [] :=
  List.filter_eq_nil_iff.mpr (fun e he => by
    have hc := setRelayRetryAux_channel outcome c m 0 e he
    simp [hc]
    exact fun hcc => h hcc.symm)

/-- A sequence of buffer operations preserves the capacity bound. -/
theorem applyBufOps_length_le (b : FrameBuffer α) (ops : List (BufOp α))
    (hpos : 0 < b.maxsize) (h : b.queue.length ≤ b.maxsize) :
    (applyBufOps b ops).queue.length ≤ b.maxsize := by
  induction ops generalizing b with
  | nil => exact h
  | cons op rest ih =>
      rw [applyBufOps]
      have h2 := applyBufOp_maxsize b op
      have := ih (applyBufOp b op) (h2 ▸ hpos)
        (h2 ▸ applyBufOp_length_le b op hpos h)
      rw [h2] at this
      exact this

end MultiMachineVision

namespace MultiMachineVision

/-! ## Claims -/

/-- C1: pair-status determination returns `OK` iff `oc_count = 1` and
`bh_count = 1`; every other combination of slot counts yields `FAULT`. -/
theorem pair_status_ok_iff_one_one (oc_count bh_count : Nat) :
    (determinePairStatus oc_count bh_count = PairStatus.OK ↔
      oc_count = 1 ∧ bh_count = 1) ∧
    (determinePairStatus oc_count bh_count = PairStatus.FAULT ↔
      ¬(oc_count = 1 ∧ bh_count = 1)) := by
  unfold determinePairStatus
  by_cases h : oc_count = 1 ∧ bh_count = 1 <;> simp [h]

/-- C1 witness: the theorem instantiated at (1,1). -/
theorem pair_status_ok_iff_one_one_witness :
    (determinePairStatus 1 1 = PairStatus.OK ↔ 1 = 1 ∧ 1 = 1) ∧
    (determinePairStatus 1 1 = PairStatus.FAULT ↔ ¬((1 : Nat) = 1 ∧ (1 : Nat) = 1)) :=
  pair_status_ok_iff_one_one 1 1

/-- C3 counterexample: before the first `process_detections` call the
pair statuses are the string `"UNKNOWN"`, which is neither `OK` nor
`FAULT`, so the claimed invariant fails at the freshly initialised
controller. -/
theorem init_statuses_unknown :
    initController.pairStatuses.1 ≠ PairStatus.OK ∧
    initController.pairStatuses.1 ≠ PairStatus.FAULT ∧
    ¬ statusesSettled initController := by
  decide

/-- C3 amended: each of the three pair statuses is in {OK, FAULT} at
every point from the first completed `process_detections` call on:
running any operation sequence that contains a `process_detections`
call — or that starts from a state whose statuses are already settled —
leaves all three statuses in {OK, FAULT}. -/
theorem statuses_settled_invariant (st : ControllerState)
    (ops : List ControllerOp)
    (h : statusesSettled st ∨ ∃ op ∈ ops, op.isProcess = true) :
    statusesSettled (applyControllerOps st ops) := by
  induction ops generalizing st with
  | nil =>
      rcases h with h | ⟨op, hmem, _⟩
      · exact h
      · exact absurd hmem (List.not_mem_nil op)
  | cons op rest ih =>
      apply ih
      cases op with
      | process c1 c2 c3 now =>
          exact Or.inl (processDetections_settled st c1 c2 c3 now)
      | reset =>
          rcases h with h | ⟨op', hmem, hp⟩
          · exact Or.inl (applyControllerOp_settled st ControllerOp.reset h)
          · rcases List.mem_cons.mp hmem with rfl | hmem'
            · exact absurd hp (by simp [ControllerOp.isProcess])
            · exact Or.inr ⟨op', hmem', hp⟩

/-- C3 witness: a concrete run containing one `process_detections`. -/
theorem statuses_settled_invariant_witness :
    (statusesSettled initController ∨
      ∃ op ∈ [ControllerOp.process (1, 1) (0, 0) (2, 1) 7, ControllerOp.reset],
        op.isProcess = true) ∧
    statusesSettled (applyControllerOps initController
      [ControllerOp.process (1, 1) (0, 0) (2, 1) 7, ControllerOp.reset]) :=
  ⟨by decide,
   statuses_settled_invariant initController
     [ControllerOp.process (1, 1) (0, 0) (2, 1) 7, ControllerOp.reset]
     (by decide)⟩

/-- C10 counterexample: the default `maxsize` parameter of
`FrameBuffer.__init__` is 10, not 5. -/
theorem frame_buffer_default_not_five :
    (FrameBuffer.mkDefault Nat).maxsize = 10 ∧ (10 : Nat) ≠ 5 := by
  decide

/-- C10 amended: the Frame Buffer's default capacity (used when no
capacity is given at construction) is 10; the capacity 5 quoted by the
spec is the explicit `maxsize=5` that `CameraThread.__init__` passes
when it builds its own frame buffer. -/
theorem frame_buffer_capacities :
    (FrameBuffer.mkDefault Nat).maxsize = frameBufferDefaultMaxsize ∧
    frameBufferDefaultMaxsize = 10 ∧
    (cameraThreadFrameBuffer Nat).maxsize = 5 := by
  decide

/-- C9: for each single pair, a status run OK, FAULT, OK across three
successive `process_detections` cycles (the two other pairs kept OK)
stamps the pair's fault time on the OK→FAULT cycle, increments
`fault_count` exactly once over the three cycles, and ends with the
pair's fault time cleared to `None` on the FAULT→OK cycle — from any
starting controller state. -/
theorem fault_record_ok_fault_ok (st : ControllerState) (n1 n2 n3 : Nat) :
    ( -- pair 1: OK, FAULT, OK
     let a1 := processDetections st (1, 1) (1, 1) (1, 1) n1
     let a2 := processDetections a1 (0, 0) (1, 1) (1, 1) n2
     let a3 := processDetections a2 (1, 1) (1, 1) (1, 1) n3
     a2.lastFaultTimes.1 = some n2 ∧ a3.lastFaultTimes.1 = none ∧
       a3.faultCount = st.faultCount + 1) ∧
    ( -- pair 2: OK, FAULT, OK
     let b1 := processDetections st (1, 1) (1, 1) (1, 1) n1
     let b2 := processDetections b1 (1, 1) (0, 0) (1, 1) n2
     let b3 := processDetections b2 (1, 1) (1, 1) (1, 1) n3
     b2.lastFaultTimes.2.1 = some n2 ∧ b3.lastFaultTimes.2.1 = none ∧
       b3.faultCount = st.faultCount + 1) ∧
    ( -- pair 3: OK, FAULT, OK
     let c1 := processDetections st (1, 1) (1, 1) (1, 1) n1
     let c2 := processDetections c1 (1, 1) (1, 1) (0, 0) n2
     let c3 := processDetections c2 (1, 1) (1, 1) (1, 1) n3
     c2.lastFaultTimes.2.2 = some n2 ∧ c3.lastFaultTimes.2.2 = none ∧
       c3.faultCount = st.faultCount + 1) := by
  simp [processDetections, determinePairStatus, updateFaultRecord]

/-- C4: over any sequence of put/get/clear operations on a bounded
frame buffer the number of stored frames never exceeds the capacity;
a put on a full buffer (modelled as a total function, hence never
blocking) removes exactly the single oldest entry and then appends the
new frame, keeping the length constant; and the frame just put is
always among the stored frames (the newest is never the one dropped). -/
theorem frame_buffer_drop_oldest (α : Type) (cap : Nat) (hcap : 0 < cap) :
    (∀ ops : List (BufOp α),
        (applyBufOps ⟨cap, []⟩ ops).queue.length ≤ cap) ∧
    (∀ (b : FrameBuffer α) (f : α), b.isFull = true →
        (b.put f).queue = b.queue.drop 1 ++ [f] ∧
        (b.put f).queue.length = b.queue.length) ∧
    (∀ (b : FrameBuffer α) (f : α), f ∈ (b.put f).queue) := by
  refine ⟨fun ops => applyBufOps_length_le ⟨cap, []⟩ ops hcap (by simp), ?_, ?_⟩
  · intro b f hfull
    have hfull' : 0 < b.maxsize ∧ b.maxsize ≤ b.queue.length := by
      simpa [FrameBuffer.isFull] using hfull
    constructor
    · simp [FrameBuffer.put, hfull]
    · simp [FrameBuffer.put, hfull]
      omega
  · intro b f
    unfold FrameBuffer.put
    split <;> simp

/-- C4 witness: the theorem instantiated at capacity 5. -/
theorem frame_buffer_drop_oldest_witness :
    0 < 5 ∧
    ((∀ ops : List (BufOp Nat),
        (applyBufOps ⟨5, []⟩ ops).queue.length ≤ 5) ∧
     (∀ (b : FrameBuffer Nat) (f : Nat), b.isFull = true →
        (b.put f).queue = b.queue.drop 1 ++ [f] ∧
        (b.put f).queue.length = b.queue.length) ∧
     (∀ (b : FrameBuffer Nat) (f : Nat), f ∈ (b.put f).queue)) :=
  ⟨by decide, frame_buffer_drop_oldest Nat 5 (by decide)⟩

set_option maxRecDepth 10000 in
/-- C5: submitting 31 frames to the empty inference input queue of
capacity 30 before the worker drains any retains exactly the first 30
frames and drops exactly 1 — the last one submitted — and
`submit_frame` is total on every queue state: each call either appends
the frame or silently drops it, never surfacing the `queue.Full`
exception to the caller. -/
theorem submit_31_drops_exactly_one :
    (submitAll (⟨[]⟩ : InferenceQueue Nat) (List.range 31)).1.items = List.range 30 ∧
    (submitAll (⟨[]⟩ : InferenceQueue Nat) (List.range 31)).1.items.length = 30 ∧
    (submitAll (⟨[]⟩ : InferenceQueue Nat) (List.range 31)).2 = 1 ∧
    (30 : Nat) ∉ (submitAll (⟨[]⟩ : InferenceQueue Nat) (List.range 31)).1.items ∧
    (∀ (q : InferenceQueue Nat) (x : Nat),
        submitFrame q x = (⟨q.items ++ [x]⟩, false) ∨
        submitFrame q x = (q, true)) := by
  refine ⟨by decide, by decide, by decide, by decide, ?_⟩
  intro q x
  unfold submitFrame queuePutNonblocking
  by_cases h : 0 < inferenceQueueCapacity ∧ inferenceQueueCapacity ≤ q.items.length
  · simp [h]
  · simp [h]

/-- C6: the sleep before the k-th consecutive reconnection (for any
base and cap; the code's defaults are base 2 and cap 60) is
`min(base * k, cap)` seconds; the sequence is non-decreasing in `k`,
and once `base * k` has reached the cap the sleep stays constant at the
cap. -/
theorem reconnect_backoff_formula (base cap k : Nat) (hk : 1 ≤ k) :
    kthReconnectSleep base cap k = min (base * k) cap ∧
    kthReconnectSleep base cap k ≤ kthReconnectSleep base cap (k + 1) ∧
    (cap ≤ base * k → kthReconnectSleep base cap k = cap) := by
  have hform : ∀ j, 1 ≤ j →
      kthReconnectSleep base cap j = min (base * j) cap := by
    intro j hj
    unfold kthReconnectSleep
    rw [iterateReconnect_attempts]
    have hj' : 0 + (j - 1) + 1 = j := by omega
    show min (base * (0 + (j - 1) + 1)) cap = min (base * j) cap
    rw [hj']
  refine ⟨hform k hk, ?_, ?_⟩
  · rw [hform k hk, hform (k + 1) (by omega)]
    exact min_le_min (Nat.mul_le_mul (le_refl base) (Nat.le_succ k)) le_rfl
  · intro hcap
    rw [hform k hk]
    exact min_eq_right hcap

/-- C6 witness: the 3rd reconnection with the default base 2 and cap
60 sleeps min(2*3, 60) = 6 seconds. -/
theorem reconnect_backoff_formula_witness :
    1 ≤ 3 ∧
    (kthReconnectSleep 2 60 3 = min (2 * 3) 60 ∧
     kthReconnectSleep 2 60 3 ≤ kthReconnectSleep 2 60 (3 + 1) ∧
     (60 ≤ 2 * 3 → kthReconnectSleep 2 60 3 = 60)) :=
  ⟨by decide, reconnect_backoff_formula 2 60 3 (by decide)⟩

/-- C7: against a source that never opens, one `connect_camera` round
with budget `maxAttempts` fails after its attempts and emits exactly
one error event; iterating the main loop any number of rounds leaves
the unit running (the loop never terminates itself — the attempt
budget is advisory) while emitting one error event per round. -/
theorem connect_budget_advisory (maxAttempts n : Nat) :
    connectCamera (fun _ => false) maxAttempts = (false, 1) ∧
    (runStepNeverOpens maxAttempts)^[n] ⟨true, false, 0⟩ = ⟨true, false, n⟩ ∧
    ((runStepNeverOpens maxAttempts)^[n] ⟨true, false, 0⟩).running = true := by
  have hiter : ∀ (m e : Nat),
      (runStepNeverOpens maxAttempts)^[m] ⟨true, false, e⟩ = ⟨true, false, e + m⟩ := by
    intro m
    induction m with
    | zero => intro e; simp
    | succ m ih =>
        intro e
        rw [Function.iterate_succ_apply]
        have hstep : runStepNeverOpens maxAttempts ⟨true, false, e⟩ =
            ⟨true, false, e + 1⟩ := by
          unfold runStepNeverOpens connectCamera
          simp [connectCameraAux_never_opens]
        rw [hstep, ih]
        congr 1
        omega
  refine ⟨connectCameraAux_never_opens maxAttempts 0, ?_, ?_⟩
  · simpa using hiter n 0
  · rw [show ((runStepNeverOpens maxAttempts)^[n] ⟨true, false, 0⟩) =
        (⟨true, false, n⟩ : CamLoopState) from by simpa using hiter n 0]

/-- C2 counterexample: `configure_machine` never checks overlap between
machines.  Starting from an empty mapping, configuring machine 1 at
start 1 and then machine 2 at start 2 both succeed, yet the two
machines' channel blocks [1,2,3] and [2,3,4] share channels 2 and 3 —
refuting the claimed no-overlap guarantee. -/
theorem configure_machine_overlap :
    configureMachine ⟨[]⟩ 1 1 = some ⟨[(1, [1, 2, 3])]⟩ ∧
    configureMachine ⟨[(1, [1, 2, 3])]⟩ 2 2 =
      some ⟨[(1, [1, 2, 3]), (2, [2, 3, 4])]⟩ ∧
    2 ∈ [1, 2, 3] ∧ 2 ∈ [2, 3, 4] ∧ 3 ∈ [1, 2, 3] ∧ 3 ∈ [2, 3, 4] := by
  decide

/-- C2 amended: a `configure_machine` call succeeds iff
`1 ≤ start ∧ start + 2 ≤ 16`; after any sequence of calls starting from
the empty mapping every configured machine owns exactly the 3
consecutive 1-indexed channels [a, a+1, a+2] of some valid start `a`,
and a successful call records exactly [start, start+1, start+2] for its
machine.  (The no-overlap clause of the original claim is dropped:
overlap between distinct machines is not checked, see the
counterexample.) -/
theorem configure_machine_blocks (st : RelayState) (mid s : Nat)
    (reqs : List (Nat × Nat)) :
    ((configureMachine st mid s).isSome ↔ 1 ≤ s ∧ s + 2 ≤ 16) ∧
    goodState (configureAll ⟨[]⟩ reqs) ∧
    (∀ st', configureMachine st mid s = some st' →
      assocFind st'.machineRelays mid = some [s, s + 1, s + 2]) := by
  refine ⟨?_, ?_, ?_⟩
  · unfold configureMachine
    by_cases hs : s < 1 ∨ s > 14
    · simp only [if_pos hs, Option.isSome_none]
      constructor
      · intro h; cases h
      · intro h; omega
    · simp only [if_neg hs, Option.isSome_some, true_iff]
      omega
  · exact configureAll_good reqs ⟨[]⟩ (fun p hp => absurd hp (List.not_mem_nil p))
  · intro st' hst'
    unfold configureMachine at hst'
    by_cases hs : s < 1 ∨ s > 14
    · rw [if_pos hs] at hst'
      cases hst'
    · rw [if_neg hs] at hst'
      cases hst'
      exact assocFind_assocSet st.machineRelays mid [s, s + 1, s + 2]

/-- C2 witness: machine 1 configured at the default start channel 6,
then the default full configuration (6, 9, 12). -/
theorem configure_machine_blocks_witness :
    ((configureMachine ⟨[]⟩ 1 6).isSome ↔ 1 ≤ 6 ∧ 6 + 2 ≤ 16) ∧
    goodState (configureAll ⟨[]⟩ [(1, 6), (2, 9), (3, 12)]) ∧
    (∀ st', configureMachine ⟨[]⟩ 1 6 = some st' →
      assocFind st'.machineRelays 1 = some [6, 6 + 1, 6 + 2]) :=
  configure_machine_blocks ⟨[]⟩ 1 6 [(1, 6), (2, 9), (3, 12)]

/-- C8: in one `set_machine_relays` call over a configured machine's
three (distinct) channels, for ANY pattern of hardware outcomes the
attempts made to each channel are exactly that channel's own
write-with-retry attempts — a channel exhausting all its retries
neither blocks nor aborts the others.  The call's success flag is the
conjunction of the three per-channel results, and a channel whose every
attempt raises used its full retry budget `0, …, maxRetries-1` and
still failed. -/
theorem relay_channels_independent (outcome : Nat → Nat → WriteOutcome) (m : Nat)
    (st : RelayState) (mid r1 r2 r3 : Nat) (f1 f2 f3 : Bool)
    (hfind : assocFind st.machineRelays mid = some [r1, r2, r3])
    (h12 : r1 ≠ r2) (h13 : r1 ≠ r3) (h23 : r2 ≠ r3) :
    ((setMachineRelays outcome m st mid [f1, f2, f3]).2.filter
        (fun e => e.1 == r1) = (setRelayWithRetry outcome m r1).2) ∧
    ((setMachineRelays outcome m st mid [f1, f2, f3]).2.filter
        (fun e => e.1 == r2) = (setRelayWithRetry outcome m r2).2) ∧
    ((setMachineRelays outcome m st mid [f1, f2, f3]).2.filter
        (fun e => e.1 == r3) = (setRelayWithRetry outcome m r3).2) ∧
    ((setMachineRelays outcome m st mid [f1, f2, f3]).1 =
      ((setRelayWithRetry outcome m r1).1 &&
        ((setRelayWithRetry outcome m r2).1 &&
          (setRelayWithRetry outcome m r3).1))) ∧
    (∀ c, (∀ j, outcome c j = WriteOutcome.raised) →
      setRelayWithRetry outcome m c =
        (false, (List.range m).map (fun j => (c, j)))) := by
  have hzip : setMachineRelays outcome m st mid [f1, f2, f3] =
      setRelaysLoop outcome m [(r1, f1), (r2, f2), (r3, f3)] := by
    unfold setMachineRelays
    rw [hfind]
    rfl
  have htrace : (setRelaysLoop outcome m [(r1, f1), (r2, f2), (r3, f3)]).2 =
      (setRelayWithRetry outcome m r1).2 ++
        ((setRelayWithRetry outcome m r2).2 ++
          ((setRelayWithRetry outcome m r3).2 ++ [])) := rfl
  have hsucc : (setRelaysLoop outcome m [(r1, f1), (r2, f2), (r3, f3)]).1 =
      ((setRelayWithRetry outcome m r1).1 &&
        ((setRelayWithRetry outcome m r2).1 &&
          ((setRelayWithRetry outcome m r3).1 && true))) := rfl
  refine ⟨?_, ?_, ?_, ?_, ?_⟩
  · rw [hzip, htrace]
    rw [List.filter_append, List.filter_append, List.filter_append]
    rw [setRelayWithRetry_filter_self outcome m r1,
        setRelayWithRetry_filter_ne outcome m r2 r1 h12,
        setRelayWithRetry_filter_ne outcome m r3 r1 h13]
    simp
  · rw [hzip, htrace]
    rw [List.filter_append, List.filter_append, List.filter_append]
    rw [setRelayWithRetry_filter_self outcome m r2,
        setRelayWithRetry_filter_ne outcome m r1 r2 (Ne.symm h12),
        setRelayWithRetry_filter_ne outcome m r3 r2 h23]
    simp
  · rw [hzip, htrace]
    rw [List.filter_append, List.filter_append, List.filter_append]
    rw [setRelayWithRetry_filter_self outcome m r3,
        setRelayWithRetry_filter_ne outcome m r1 r3 (Ne.symm h13),
        setRelayWithRetry_filter_ne outcome m r2 r3 (Ne.symm h23)]
    simp
  · rw [hzip, hsucc]
    simp
  · intro c hc
    rw [setRelayWithRetry, setRelayRetryAux_exhausted outcome c m 0 hc,
        List.range_eq_range']

/-- C8 witness: machine 1 on channels 6,7,8 against a board where every
write attempt raises. -/
theorem relay_channels_independent_witness :
    (assocFind (⟨[(1, [6, 7, 8])]⟩ : RelayState).machineRelays 1 =
        some [6, 7, 8] ∧
      (6 : Nat) ≠ 7 ∧ (6 : Nat) ≠ 8 ∧ (7 : Nat) ≠ 8) ∧
    (((setMachineRelays (fun (_ : Nat) (_ : Nat) => WriteOutcome.raised) 3 ⟨[(1, [6, 7, 8])]⟩ 1
          [true, false, true]).2.filter (fun e => e.1 == 6) =
        (setRelayWithRetry (fun (_ : Nat) (_ : Nat) => WriteOutcome.raised) 3 6).2) ∧
     ((setMachineRelays (fun (_ : Nat) (_ : Nat) => WriteOutcome.raised) 3 ⟨[(1, [6, 7, 8])]⟩ 1
          [true, false, true]).2.filter (fun e => e.1 == 7) =
        (setRelayWithRetry (fun (_ : Nat) (_ : Nat) => WriteOutcome.raised) 3 7).2) ∧
     ((setMachineRelays (fun (_ : Nat) (_ : Nat) => WriteOutcome.raised) 3 ⟨[(1, [6, 7, 8])]⟩ 1
          [true, false, true]).2.filter (fun e => e.1 == 8) =
        (setRelayWithRetry (fun (_ : Nat) (_ : Nat) => WriteOutcome.raised) 3 8).2) ∧
     ((setMachineRelays (fun (_ : Nat) (_ : Nat) => WriteOutcome.raised) 3 ⟨[(1, [6, 7, 8])]⟩ 1
          [true, false, true]).1 =
        ((setRelayWithRetry (fun (_ : Nat) (_ : Nat) => WriteOutcome.raised) 3 6).1 &&
          ((setRelayWithRetry (fun (_ : Nat) (_ : Nat) => WriteOutcome.raised) 3 7).1 &&
            (setRelayWithRetry (fun (_ : Nat) (_ : Nat) => WriteOutcome.raised) 3 8).1))) ∧
     (∀ c, (∀ j, (fun (_ : Nat) (_ : Nat) => WriteOutcome.raised) c j = WriteOutcome.raised) →
        setRelayWithRetry (fun (_ : Nat) (_ : Nat) => WriteOutcome.raised) 3 c =
          (false, (List.range 3).map (fun j => (c, j))))) :=
  ⟨⟨by decide, by decide, by decide, by decide⟩,
   relay_channels_independent (fun (_ : Nat) (_ : Nat) => WriteOutcome.raised) 3
     ⟨[(1, [6, 7, 8])]⟩ 1 6 7 8 true false true (by decide) (by decide)
     (by decide) (by decide)⟩

end MultiMachineVision
